import Mathlib

/-
Verification of the link-rediscovery engine in
`rediscover_employment_links_v3.py` (CT-Municipal-Streamlit).

The Python source is shallowly embedded: pure string helpers become Lean
functions over `String`/`List Char`; the network is an explicit environment
`Env : String → Option Response` (`none` models a transport error caught by
`get`, whose Python error message suffix is abstracted away from the reason
strings); HTML anchor extraction (BeautifulSoup) is modelled as data carried
by each fetched `Response` (`links` for the whole page, `navFooterLinks`
for the `nav a[href], footer a[href]` selector), i.e. as an oracle that is a
pure function of the fetched page, constant across a run.  Records are a
structure with one field per JSON key the engine reads or writes; a missing
or falsy string key is modelled as `""`, a missing optional key as `none`.
`time.sleep` pacing and the wall clock (`now_utc_iso`) are abstracted: the
timestamp is a parameter `now`.  Outbound fetches are instrumented as a
trace (list of fetched URLs) threaded through the engine.
-/

-- ==================== basic string helpers ====================

/-- ASCII lower-casing of one character, the behaviour of CPython
`str.lower` on the ASCII range used throughout the script. -/
def lc (c : Char) : Char :=
  if 65 ≤ c.toNat && c.toNat ≤ 90 then Char.ofNat (c.toNat + 32) else c

/-- `s.lower()` for the ASCII strings this program manipulates. -/
def lows (s : String) : String := ⟨s.data.map lc⟩

/-- Whitespace test used by `str.strip()` (the whitespace characters that
occur in this program's data). -/
def wsB (c : Char) : Bool := c == ' ' || c == '\t' || c == '\n' || c == '\r'

/-- Python `str.strip()`. -/
def pyStrip (s : String) : String :=
  ⟨((s.data.dropWhile wsB).reverse.dropWhile wsB).reverse⟩

/-- Is `pat` a contiguous infix of `hay` (list version)? Models Python
`pat in hay`. -/
def listInfix (pat : List Char) : List Char → Bool
  | [] => pat.isEmpty
  | c :: rest => pat.isPrefixOf (c :: rest) || listInfix pat rest

/-- Python `pat in hay` on strings. -/
def strHas (hay pat : String) : Bool := listInfix pat.data hay.data

/-- Python `hay.startswith(pre)`. -/
def strStarts (hay pre : String) : Bool := pre.data.isPrefixOf hay.data

/-- Python `hay.endswith(suf)`. -/
def strEnds (hay suf : String) : Bool :=
  suf.data.reverse.isPrefixOf hay.data.reverse

/-- Split a character list at the first occurrence of `sep`: the part
before it and the part after it (the separator removed); the whole list
and `[]` when `sep` does not occur. -/
def splitFirst (sep : Char) (l : List Char) : List Char × List Char :=
  (l.takeWhile (fun c => c != sep), (l.dropWhile (fun c => c != sep)).drop 1)

/-- Python `s.split(sep)` for a one-character separator. -/
def splitOnChar (sep : Char) (l : List Char) : List (List Char) :=
  l.foldr
    (fun c acc =>
      if c == sep then [] :: acc
      else
        match acc with
        | h :: t => (c :: h) :: t
        | [] => [[c]])
    [[]]

def isDigitB (c : Char) : Bool := 48 ≤ c.toNat && c.toNat ≤ 57

def isAlphaB (c : Char) : Bool :=
  (65 ≤ c.toNat && c.toNat ≤ 90) || (97 ≤ c.toNat && c.toNat ≤ 122)

def isAlnumLowerB (c : Char) : Bool :=
  (97 ≤ c.toNat && c.toNat ≤ 122) || isDigitB c

/-- One hex digit, for percent-decoding. -/
def hexVal (c : Char) : Option Nat :=
  if 48 ≤ c.toNat && c.toNat ≤ 57 then some (c.toNat - 48)
  else if 97 ≤ c.toNat && c.toNat ≤ 102 then some (c.toNat - 87)
  else if 65 ≤ c.toNat && c.toNat ≤ 70 then some (c.toNat - 55)
  else none

/-- Percent-decoding of `%XX` escapes, Python `urllib.parse.unquote`:
an invalid escape leaves the `%` literal. -/
def pdGo : List Char → List Char
  | [] => []
  | '%' :: a :: b :: rest =>
    match hexVal a, hexVal b with
    | some x, some y => Char.ofNat (16 * x + y) :: pdGo rest
    | _, _ => '%' :: pdGo (a :: b :: rest)
  | c :: rest => c :: pdGo rest

def percentDecode (s : String) : String := ⟨pdGo s.data⟩

def plusToSpace (l : List Char) : List Char :=
  l.map (fun c => if c == '+' then ' ' else c)

-- ==================== URL parsing ====================

structure UrlParts where
  scheme : String
  netloc : String
  path : String
  query : String
  fragment : String
deriving Repr, DecidableEq

/-- Characters allowed in a URL scheme (`urllib.parse.scheme_chars`). -/
def schemeChar (c : Char) : Bool :=
  isAlphaB c || isDigitB c || c == '+' || c == '-' || c == '.'

/-- Split off a syntactically valid scheme before the first `:`;
`none` when the prefix before the first colon is not a valid scheme. -/
def schemeSplit (cs : List Char) : Option (List Char × List Char) :=
  let pre := cs.takeWhile (fun c => c != ':')
  if pre.length == cs.length then none
  else
    match pre with
    | [] => none
    | c :: _ =>
      if isAlphaB c && pre.all schemeChar then some (pre, cs.drop (pre.length + 1))
      else none

def mkParts (scheme netloc : String) (cs : List Char) : UrlParts :=
  let (beforeHash, frag) := splitFirst '#' cs
  let (p, q) := splitFirst '?' beforeHash
  ⟨scheme, netloc, ⟨p⟩, ⟨q⟩, ⟨frag⟩⟩

def parseAfterScheme (scheme : String) (cs : List Char) : UrlParts :=
  match cs with
  | '/' :: '/' :: r =>
    let nl := r.takeWhile (fun c => c != '/' && c != '?' && c != '#')
    mkParts scheme ⟨nl⟩ (r.drop nl.length)
  | _ => mkParts scheme "" cs

/-- `urllib.parse.urlparse`, restricted to the `scheme://netloc/path?query#frag`
shapes this program feeds it (modern CPython also strips surrounding
whitespace and lower-cases the scheme, modelled here). -/
def urlparts (s : String) : UrlParts :=
  let cs := (pyStrip s).data
  match schemeSplit cs with
  | some (sch, rest) => parseAfterScheme ⟨sch.map lc⟩ rest
  | none => parseAfterScheme "" cs

/-- Directory prefix of a path (up to and including the last `/`),
`"/"` when the path has no slash; the piece of `urljoin` relative
resolution this program exercises. -/
def dirOf (p : String) : String :=
  let r := p.data.reverse.dropWhile (fun c => c != '/')
  if r.isEmpty then "/" else ⟨r.reverse⟩

/-- `urllib.parse.urljoin` for the call shapes in the source: an absolute
`rel` wins; a root-relative `rel` replaces the path; otherwise `rel`
(possibly carrying a query) is resolved against the base directory. -/
def urljoin (base rel : String) : String :=
  if strStarts (lows rel) "http://" || strStarts (lows rel) "https://" then rel
  else
    let b := urlparts base
    if strStarts rel "/" then b.scheme ++ "://" ++ b.netloc ++ rel
    else b.scheme ++ "://" ++ b.netloc ++ dirOf b.path ++ rel

-- ==================== configuration tables ====================

def CIVICPLUS_COMMON_PATHS : List String :=
  ["/Jobs.aspx", "/jobs.aspx",
   "/Employment", "/employment",
   "/Employment-Opportunities", "/employment-opportunities",
   "/Careers", "/careers",
   "/Human-Resources", "/human-resources",
   "/QuickLinks.aspx", "/quicklinks.aspx",
   "/211/Departments"]

def KW_EMPLOYMENT : List String :=
  ["employment", "employment opportunities",
   "jobs", "job", "job openings", "job opportunities",
   "careers", "career opportunities",
   "human resources", "hr",
   "vacancies", "openings",
   "apply", "application"]

def KW_STRONG_LABELS : List String :=
  ["employment opportunities", "job openings", "career opportunities",
   "human resources"]

def KW_NEGATIVE : List String :=
  ["departments", "department", "about", "contact", "news", "calendar",
   "events", "agenda", "minutes", "meetings", "boards", "commissions"]

def ATS_HINTS : List String :=
  ["governmentjobs.com", "neogov.com", "appone.com", "paycomonline.net",
   "jobapscloud.com", "frontlineeducation.com", "applitrack.com"]

def SOCIAL_BLOCK : List String :=
  ["facebook.com", "twitter.com", "x.com", "instagram.com", "youtube.com",
   "linkedin.com"]

/-- The alternatives of `SOFT404_RE` (a disjunction of literal substrings,
matched case-insensitively). -/
def SOFT404_PATTERNS : List String :=
  ["page not found", "404", "the page you requested", "does not exist",
   "not be found"]

def BLOCKED_PATTERNS : List String :=
  ["checking your browser", "ddos protection", "attention required",
   "cloudflare", "please enable javascript", "enable javascript",
   "enable cookies", "access denied", "temporarily unavailable",
   "verify you are human"]

def APPLICATION_HINTS : List String :=
  ["application for employment", "employment application", "job application",
   "application", "fillable", "empapp", "employment-app"]

-- ==================== network model ====================

/-- An HTTP response as the program observes it after `requests.get` with
redirects: `url` is the final URL, plus status, `Content-Type` header and
body text.  `links` / `navFooterLinks` are the oracle for BeautifulSoup
anchor extraction on this page (absolute URL, combined label). -/
structure Response where
  url : String := ""
  status : Int := 200
  contentType : String := "text/html"
  text : String := ""
  links : List (String × String) := []
  navFooterLinks : List (String × String) := []
deriving Repr, DecidableEq

/-- The external network: `none` is a transport error
(`requests.RequestException` caught inside `get`). -/
abbrev Env : Type := String → Option Response

-- ==================== small predicates from the source ====================

def is_url (v : String) : Bool :=
  strStarts (lows (pyStrip v)) "http://" || strStarts (lows (pyStrip v)) "https://"

def is_pdf (url : String) : Bool :=
  strEnds ⟨(lows url).data.takeWhile (fun c => c != '?')⟩ ".pdf"

def blocked_reason (html : String) : Option String :=
  BLOCKED_PATTERNS.find? (fun p => strHas (lows html) p)

def looks_soft404 (resp : Response) : Bool :=
  if resp.status != 200 then false
  else
    let ctype := lows resp.contentType
    if !(strHas ctype "text/html") && !(strHas ctype "application/xhtml")
        && ctype != "" then false
    else SOFT404_PATTERNS.any (fun p => strHas (lows ⟨resp.text.data.take 250000⟩) p)

def homepage (url : String) : Option String :=
  if pyStrip url == "" then none
  else
    let u := urlparts url
    if u.scheme == "" || u.netloc == "" then none
    else some (u.scheme ++ "://" ++ u.netloc ++ "/")

def host_norm (url : String) : String :=
  let h : String := ⟨(urlparts url).netloc.data.map lc⟩
  if strStarts h "www." then ⟨h.data.drop 4⟩ else h

def same_site (a b : String) : Bool :=
  host_norm a != "" && host_norm a == host_norm b

def is_social (url : String) : Bool :=
  SOCIAL_BLOCK.any (fun d => strHas (lows url) d)

def is_ats (url : String) : Bool :=
  ATS_HINTS.any (fun h => strHas (lows url) h)

def kw_hit (s : String) : Bool :=
  KW_EMPLOYMENT.any (fun k => strHas (lows s) k)

/-- CivicPlus page-id pattern `^/\d{2,6}/` on a URL path. -/
def pageIdB (path : String) : Bool :=
  match path.data with
  | '/' :: rest =>
    let ds := rest.takeWhile isDigitB
    decide (2 ≤ ds.length) && decide (ds.length ≤ 6) &&
      (match rest.drop ds.length with
       | '/' :: _ => true
       | _ => false)
  | _ => false

-- ==================== scoring ====================

def score_candidate (url label base_home source : String) : Int :=
  if is_social url then -10000
  else
    let u := lows url
    let t := lows label
    (if same_site url base_home then 40 else 0)
    + (if is_ats url then 45 else 0)
    + (if source == "civicplus_path" || source == "civiclift_path"
          || source == "granicus_path" then 20 else 0)
    + (if kw_hit u || kw_hit t then 50 else 0)
    + (if KW_STRONG_LABELS.any (fun k => strHas t k) then 15 else 0)
    + (if pageIdB (urlparts url).path
          && (strHas u "employment" || strHas u "job" || strHas u "career")
       then 30 else 0)
    + (if is_pdf url then -25 else 0)
    + (if ["employment", "jobs", "careers", "human-resources"].any
            (fun x => strHas u x) then 10 else 0)
    + (if strHas u "jobs.aspx" then 20 else 0)
    + (if KW_NEGATIVE.any (fun b => strHas u b) && !kw_hit u then -15 else 0)
    + (if KW_NEGATIVE.any (fun b => strHas t b) && !kw_hit t then -10 else 0)

-- ==================== splash unwrapping and validation ====================

/-- First `splash` query-parameter value (Python `parse_qs(...)["splash"][0]`):
pairs split on `&`, value after the first `=`, blank values skipped,
`+` decoded to space and percent-escapes decoded. -/
def splashParam : List (List Char) → Option String
  | [] => none
  | pair :: rest =>
    let k := pair.takeWhile (fun c => c != '=')
    if k.length == pair.length then splashParam rest
    else
      let v := pair.drop (k.length + 1)
      if v.isEmpty then splashParam rest
      else if (⟨k⟩ : String) == "splash" then some ⟨pdGo (plusToSpace v)⟩
      else splashParam rest

def unwrap_granicus_splash (url : String) : Option String :=
  let q := (urlparts url).query
  match splashParam (splitOnChar '&' q.data) with
  | none => none
  | some sp =>
    if sp == "" then none
    else
      let sp2 := percentDecode sp
      if is_url sp2 then some sp2 else none

structure VOutcome where
  ok : Bool
  final : Option String
  reason : String
  blocked : Option String
deriving Repr, DecidableEq

/-- The final URL used by `validate_candidate`: `resp.url or url`, then the
ATS `/careers/` deep path restored when the redirect collapsed to the root. -/
def adjustedFinal (url : String) (resp : Response) : String :=
  let f0 := if resp.url == "" then url else resp.url
  if is_ats url && strStarts (urlparts url).path "/careers/"
      && ((urlparts f0).path == "" || (urlparts f0).path == "/")
  then url else f0

def validate_candidate (env : Env) (url base_home : String) : VOutcome :=
  match env url with
  | none => ⟨false, none, "fetch_error", none⟩
  | some resp =>
    let final := adjustedFinal url resp
    let splashHit :=
      match unwrap_granicus_splash final with
      | some t => if is_ats t then some t else none
      | none => none
    match splashHit with
    | some t => ⟨true, some t, "ok_granicus_splash_to_ats", none⟩
    | none =>
      if 400 ≤ resp.status then
        ⟨false, some final, "status_" ++ toString resp.status, none⟩
      else
        let ctype := lows resp.contentType
        let block0 :=
          if strHas ctype "text/html" || ctype == "" then blocked_reason resp.text
          else none
        let block :=
          if (block0 == some "enable javascript"
                || block0 == some "please enable javascript") && is_ats final
          then none else block0
        match block with
        | some b => ⟨false, some final, "blocked_or_interstitial", some b⟩
        | none =>
          if looks_soft404 resp then ⟨false, some final, "soft404", none⟩
          else if is_social final then ⟨false, some final, "social_blocked", none⟩
          else if !same_site final base_home && !is_ats final then
            ⟨false, some final, "offsite_not_ats", none⟩
          else ⟨true, some final, "ok", none⟩

-- ==================== candidate generation ====================

/-- A candidate: (absolute URL, label, provenance source tag). -/
abbrev Cand : Type := String × String × String

/-- `urlencode` for the alphanumeric-plus-space phrases used here:
`quote_plus` turns spaces into `+`. -/
def spaceToPlus (l : List Char) : List Char :=
  l.map (fun c => if c == ' ' then '+' else c)

def civicplus_search_urls (base_home : String) : List String :=
  ["employment", "jobs", "Employment Opportunities", "human resources"].map
    (fun p => urljoin base_home ("Search?searchPhrase=" ++ ⟨spaceToPlus p.data⟩))

/-- Homepage/nav-footer crawl step shared by the `discover_*` strategies:
fetch `base_home`; on a live, non-soft-404 response filter the page links
and the nav/footer links by `keep`; otherwise contribute nothing. -/
def crawlHome (env : Env) (base_home : String)
    (keep : String → String → Bool) : List Cand :=
  match env base_home with
  | some r =>
    if r.status < 400 && !looks_soft404 r then
      (r.links.filter (fun l => keep l.1 l.2)).map (fun l => (l.1, l.2, "homepage_link"))
        ++ (r.navFooterLinks.filter (fun l => keep l.1 l.2)).map
            (fun l => (l.1, l.2, "nav_footer_link"))
    else []
  | none => []

/-- Python `p.lstrip("/")`. -/
def lstripSlash (s : String) : String := ⟨s.data.dropWhile (fun c => c == '/')⟩

def civicplusTemplates (base_home : String) : List Cand :=
  CIVICPLUS_COMMON_PATHS.map
    (fun p => (urljoin base_home (lstripSlash p), "CIVICPLUS_PATH:" ++ p, "civicplus_path"))

def discover_civicplus (env : Env) (base_home : String) : List Cand × List String :=
  let keepCp := fun (u t : String) => kw_hit u || kw_hit t || pageIdB (urlparts u).path
  let homeCands := crawlHome env base_home keepCp
  let ql := urljoin base_home "QuickLinks.aspx"
  let qlCands :=
    match env ql with
    | some r =>
      if r.status < 400 && !looks_soft404 r then
        (r.links.filter (fun l => kw_hit l.1 || kw_hit l.2 || strHas (lows l.1) "jobs.aspx")).map
          (fun l => (l.1, l.2, "quicklinks"))
      else []
    | none => []
  let searchCands :=
    (civicplus_search_urls base_home).flatMap
      (fun su =>
        match env su with
        | some r =>
          if r.status < 400 && !looks_soft404 r then
            (r.links.filter (fun l => keepCp l.1 l.2)).map
              (fun l => (l.1, l.2, "civicplus_search"))
          else []
        | none => [])
  (civicplusTemplates base_home ++ homeCands ++ qlCands ++ searchCands,
    [base_home, ql] ++ civicplus_search_urls base_home)

def civicliftTemplates (base_home : String) : List Cand :=
  ["/employment", "/job-openings", "/jobs", "/career-opportunities", "/careers"].map
    (fun p => (urljoin base_home (lstripSlash p), "CIVICLIFT_PATH:" ++ p, "civiclift_path"))

def discover_civiclift (env : Env) (base_home : String) : List Cand × List String :=
  (civicliftTemplates base_home
     ++ crawlHome env base_home (fun u t => kw_hit u || kw_hit t)
     ++ [(base_home, "CIVICLIFT_FALLBACK_HOME", "fallback_home")],
   [base_home])

def granicusTemplates (base_home : String) : List Cand :=
  ["/government/human-resources", "/government/human-resources/city-jobs", "/jobs"].map
    (fun p => (urljoin base_home (lstripSlash p), "GRANICUS_PATH:" ++ p, "granicus_path"))

def discover_granicus (env : Env) (base_home : String) : List Cand × List String :=
  (crawlHome env base_home (fun u t => is_ats u || kw_hit u || kw_hit t)
     ++ granicusTemplates base_home,
   [base_home])

def discover_other (env : Env) (base_home : String) : List Cand × List String :=
  (crawlHome env base_home
     (fun u t => kw_hit u || kw_hit t || strHas (lows t) "human resources"),
   [base_home])

/-- GovernmentJobs/NEOGOV slug fallbacks for Granicus sites: slug is the
town name lower-cased with non-alphanumerics removed. -/
def granicus_ats_fallback_candidates (town : String) : List Cand :=
  let slug : String := ⟨(town.data.map lc).filter isAlnumLowerB⟩
  [("https://www.governmentjobs.com/careers/" ++ slug ++ "ct",
    "ATS_FALLBACK:governmentjobs_slug_ct", "ats_fallback"),
   ("https://www.governmentjobs.com/careers/" ++ slug,
    "ATS_FALLBACK:governmentjobs_slug", "ats_fallback")]

-- ==================== application PDF finder ====================

def appScore (base_home u t : String) : Int :=
  let hay := lows (u ++ " " ++ t)
  (if same_site u base_home then 20 else 0)
    + 25 * Int.ofNat (APPLICATION_HINTS.countP (fun h => strHas hay h))
    + (if strHas hay "application" then 10 else 0)

def pickGo (base_home : String) (cur : Option String × Int) :
    List (String × String) → Option String × Int
  | [] => cur
  | (u, t) :: rest =>
    let s := appScore base_home u t
    if s > cur.2 then pickGo base_home (some u, s) rest
    else pickGo base_home cur rest

def pickBestPdf (base_home : String) (pdfs : List (String × String)) :
    Option String × Int :=
  pickGo base_home (none, -999) pdfs

def find_application_pdf (env : Env) (employment_url base_home : String) :
    (Option String × String) × List String :=
  match env employment_url with
  | none => ((none, "employment_fetch_error"), [employment_url])
  | some resp =>
    if 400 ≤ resp.status || looks_soft404 resp then
      ((none, "employment_not_ok: " ++ toString resp.status), [employment_url])
    else
      let ctype := lows resp.contentType
      if !strHas ctype "text/html" && ctype != "" then
        ((none, "employment_not_html"), [employment_url])
      else
        let pdfs := resp.links.filter (fun l => is_pdf l.1)
        if pdfs.isEmpty then ((none, "no_pdf_links"), [employment_url])
        else
          match pickBestPdf base_home pdfs with
          | (some best, bestScore) =>
            if 35 ≤ bestScore then
              let v := validate_candidate env best base_home
              if v.ok then
                ((v.final, "application_pdf_found_on_employment_page"),
                 [employment_url, best])
              else
                ((none, "application_pdf_candidate_invalid:" ++ v.reason),
                 [employment_url, best])
            else ((none, "no_confident_application_pdf_found"), [employment_url])
          | (none, _) => ((none, "no_confident_application_pdf_found"), [employment_url])

-- ==================== stable descending sort ====================

/-- A scored candidate, the Python tuple `(score, url, label, source)`. -/
abbrev SCand : Type := Int × String × String × String

/-- Insert `a` into a descending-sorted list, before the first element whose
key does not exceed the key of `a`: combined with `sortKey` this is the unique
stable descending sort, the sequence-level semantics of CPython
`list.sort(reverse=True, key=...)` (Timsort is stable, and `reverse=True`
does not reorder equal keys). -/
def insKey {α : Type} (key : α → Int) (a : α) : List α → List α
  | [] => [a]
  | b :: l => if key b ≤ key a then a :: b :: l else b :: insKey key a l

def sortKey {α : Type} (key : α → Int) : List α → List α
  | [] => []
  | a :: l => insKey key a (sortKey key l)

-- ==================== de-duplication ====================

/-- The de-duplication loop of `rediscover_for_town`: skip non-URLs, strip
each URL, keep the first occurrence of each stripped URL (`seen` is the
accumulator set). -/
def dedupGo (seen : List String) : List Cand → List Cand
  | [] => []
  | c :: rest =>
    if !is_url c.1 then dedupGo seen rest
    else
      let u := pyStrip c.1
      if seen.contains u then dedupGo seen rest
      else (u, c.2) :: dedupGo (u :: seen) rest

def dedupCands (l : List Cand) : List Cand := dedupGo [] l

/-- First-occurrence-wins specification of the same de-duplication,
written as filtering away later candidates with the same stripped URL. -/
def dedupSpec : List Cand → List Cand
  | [] => []
  | c :: rest =>
    if is_url c.1 then
      (pyStrip c.1, c.2) ::
        dedupSpec (rest.filter (fun d => !(is_url d.1 && pyStrip d.1 == pyStrip c.1)))
    else dedupSpec rest
termination_by l => l.length
decreasing_by
  · simp only [List.length_cons]
    exact Nat.lt_succ_of_le (List.length_filter_le _ _)
  · simp only [List.length_cons]
    exact Nat.lt_succ_self _

/-- De-duplication the way the claim words it: keep the first occurrence of
each exact URL string, nothing else filtered or rewritten. -/
def dedupExactGo (seen : List String) : List Cand → List Cand
  | [] => []
  | c :: rest =>
    if seen.contains c.1 then dedupExactGo seen rest
    else c :: dedupExactGo (c.1 :: seen) rest

def dedupExactSpec (l : List Cand) : List Cand := dedupExactGo [] l

-- ==================== the record and the result row ====================

/-- One organization's record: the JSON keys that
`rediscover_employment_links_v3.py` reads or writes.  String keys that may
be missing are `""` when absent (Python `rec.get(k) or ""`); keys whose
presence matters are `Option`s. -/
structure Record where
  town : String := ""
  townWebsite : String := ""
  employmentUrl : String := ""
  applicationUrl : Option String := none
  applicationUrlOriginal : Option String := none
  atsPlatformHint : String := ""
  employmentUrlStatus : Option Int := none
  employmentUrlSoft404 : Bool := false
  notes : String := ""
  platformDetected : Option String := none
  employmentPageType : Option String := none
  employmentUrlFinal : Option String := none
  employmentUrlLastCheckedAt : Option String := none
  employmentUrlChangeReason : Option String := none
  employmentUrlConfidence : Option Int := none
  employmentUrlDiscoveryMethod : Option String := none
  employmentUrlDiscoveryScore : Option Int := none
  employmentUrlValidationReason : Option String := none
  employmentUrlLastBlockedReason : Option String := none
  applicationUrlFinal : Option String := none
  applicationUrlLastCheckedAt : Option String := none
  applicationUrlChangeReason : Option String := none
  applicationUrlConfidence : Option Int := none
deriving Repr, DecidableEq

/-- One row of the per-town report (the return dict of `rediscover_for_town`);
absent keys are `none`. -/
structure Row where
  town : String := ""
  action : String := ""
  reason : Option String := none
  platform : Option String := none
  oldEmploymentUrl : Option String := none
  newEmploymentUrl : Option String := none
  confidence : Option Int := none
  source : Option String := none
  employmentPageType : Option String := none
  blockedReason : Option String := none
deriving Repr, DecidableEq

def townName (rec : Record) : String :=
  if rec.town == "" then "(unknown)" else rec.town

-- ==================== gates and platform detection ====================

/-- `status in DO_NOT_REWRITE_IF_STATUS_IN` (the set `{401, 403}`). -/
def dntGate (st : Option Int) : Bool := st == some 401 || st == some 403

def statusStr : Option Int → String
  | some n => toString n
  | none => "None"

def should_attempt (rec : Record) : Bool :=
  if dntGate rec.employmentUrlStatus then false
  else if rec.employmentUrlStatus == some 404 || rec.employmentUrlStatus == some 410
      || rec.employmentUrlStatus == (none : Option Int)
      || rec.employmentUrlStatus == some (-1) then true
  else if rec.employmentUrlSoft404 then true
  else false

def detect_platform (rec : Record) : String :=
  let known := lows (pyStrip rec.atsPlatformHint)
  if strHas known "civicplus" then "civicplus"
  else if strHas known "civiclift" then "civiclift"
  else if strHas known "granicus" then "granicus"
  else
    let blob := lows (rec.townWebsite ++ " " ++ rec.employmentUrl)
    if strHas blob "civicplus.com" || strHas blob "jobs.aspx"
        || strHas blob "quicklinks.aspx" then "civicplus"
    else if strHas blob "civiclift" then "civiclift"
    else if strHas blob "granicus" then "granicus"
    else "other"

/-- The `Town Website` normalisation at the top of `rediscover_for_town`:
replace it by its homepage when it is a URL, else derive it from the
employment URL when that is a URL. -/
def normalizeHome (rec : Record) : Record :=
  if is_url rec.townWebsite then
    { rec with townWebsite := (homepage rec.townWebsite).getD rec.townWebsite }
  else if is_url rec.employmentUrl then
    { rec with townWebsite := (homepage rec.employmentUrl).getD rec.townWebsite }
  else rec

-- ==================== record update and confidence ====================

def update_record (rec : Record) (new_emp platform change_reason : String)
    (confidence : Int) (discovery_method : String) (discovery_score : Int)
    (validation_reason now : String) : Record :=
  { rec with
    platformDetected := some platform
    employmentUrl := new_emp
    employmentUrlFinal := some new_emp
    employmentUrlLastCheckedAt := some now
    employmentUrlChangeReason := some change_reason
    employmentUrlConfidence := some confidence
    employmentUrlDiscoveryMethod := some discovery_method
    employmentUrlDiscoveryScore := some discovery_score
    employmentUrlValidationReason := some validation_reason }

/-- The confidence computation of the acceptance path: start at 70, +15 for
an employment keyword in the URL, +10 for the CivicPlus page-id pattern,
raised to at least 85 for an ATS vendor URL, capped at 75 for a PDF, capped
at 95 overall. -/
def confFor (u : String) : Int :=
  let base : Int :=
    70 + (if ["employment", "jobs", "careers", "human-resources"].any
              (fun k => strHas (lows u) k) then 15 else 0)
       + (if pageIdB (urlparts u).path then 10 else 0)
  let vendorRaised := if is_ats u then max base 85 else base
  let pdfCapped := if is_pdf u then min vendorRaised 75 else vendorRaised
  min pdfCapped 95

/-- The employment-page-type classification of the acceptance path. -/
def pageTypeFor (platform new_emp notes : String) : String :=
  if is_ats new_emp then "ats_vendor"
  else if platform == "civicplus"
      && (strHas (lows new_emp) "jobs.aspx" || pageIdB (urlparts new_emp).path) then
    "module_page"
  else if strHas (lows new_emp) "human-resources"
      || strHas (lows notes) "human resources" then "hr_page"
  else if is_pdf new_emp then "pdf_posting"
  else "page"

-- ==================== validation loop ====================

/-- State of the top-40 validation loop: best accepted non-PDF, best
accepted PDF (score, final url, source, validation reason), last observed
block signature, and the fetch trace so far. -/
structure LoopSt where
  bh : Option (Int × String × String × String) := none
  bp : Option (Int × String × String × String) := none
  lb : Option String := none
  tr : List String := []
deriving Repr

def valLoop (env : Env) (base_home : String) : LoopSt → List SCand → LoopSt
  | st, [] => st
  | st, (s, u, _, src) :: rest =>
    if s < 0 then valLoop env base_home st rest
    else if is_social u then valLoop env base_home st rest
    else
      let v := validate_candidate env u base_home
      let st1 : LoopSt :=
        { st with
          tr := st.tr ++ [u]
          lb := match v.blocked with
                | some b => some b
                | none => st.lb }
      let st2 : LoopSt :=
        if v.ok && v.final.getD "" != "" then
          let f := v.final.getD ""
          if is_pdf f then
            match st1.bp with
            | none => { st1 with bp := some (s, f, src, v.reason) }
            | some old =>
              if s > old.1 then { st1 with bp := some (s, f, src, v.reason) } else st1
          else
            match st1.bh with
            | none => { st1 with bh := some (s, f, src, v.reason) }
            | some old =>
              if s > old.1 then { st1 with bh := some (s, f, src, v.reason) } else st1
        else st1
      valLoop env base_home st2 rest

def genCandidates (env : Env) (platform base_home town : String) :
    List Cand × List String :=
  if platform == "civicplus" then discover_civicplus env base_home
  else if platform == "civiclift" then discover_civiclift env base_home
  else if platform == "granicus" then
    let (c, tr) := discover_granicus env base_home
    (c ++ granicus_ats_fallback_candidates town, tr)
  else discover_other env base_home

/-- Candidate generation, de-duplication, scoring, stable descending sort,
and validation of the top 40: everything between the attempt gate and the
outcome decision.  Depends only on the environment, the platform, the base
homepage and the town name. -/
def pipelineState (env : Env) (platform base_home town : String) : LoopSt :=
  let (cand, gtr) := genCandidates env platform base_home town
  let scored : List SCand :=
    (dedupCands cand).map (fun c => (score_candidate c.1 c.2.1 base_home c.2.2, c))
  let sorted := sortKey (fun x => x.1) scored
  valLoop env base_home { tr := gtr } (sorted.take 40)

-- ==================== outcome decision ====================

/-- `chosen = best_html or best_pdf`. -/
def chooseBest (bh bp : Option (Int × String × String × String)) :
    Option (Int × String × String × String) :=
  match bh with
  | some x => some x
  | none => bp

/-- The outcome decision of `rediscover_for_town` once the validation loop
has finished: best non-PDF, else best PDF, else the CivicLift ephemeral
fallback, else needs-review; on acceptance compute confidence and page
type, update the record, and optionally refresh the application PDF. -/
def finalize (env : Env) (now platform base_home town : String) (rec2 : Record)
    (bh bp : Option (Int × String × String × String)) (lb : Option String)
    (tr : List String) : Record × Row × List String :=
  match chooseBest bh bp with
  | none =>
    if platform == "civiclift" then
      ({ rec2 with employmentPageType := some "ephemeral_posts" },
       { town := town, action := "updated", platform := some platform,
         reason := some "no_stable_employment_page_detected_ephemeral_posts",
         newEmploymentUrl := some base_home, confidence := some 60,
         employmentPageType := some "ephemeral_posts" },
       tr)
    else
      match lb with
      | some b =>
        ({ rec2 with employmentUrlLastBlockedReason := some b },
         { town := town, action := "needs_review",
           reason := some "no_candidate_validated", platform := some platform,
           blockedReason := some b },
         tr)
      | none =>
        (rec2,
         { town := town, action := "needs_review",
           reason := some "no_candidate_validated", platform := some platform },
         tr)
  | some (s, new_emp, src, why) =>
    let conf := confFor new_emp
    let rec3 := { rec2 with employmentPageType := some (pageTypeFor platform new_emp rec2.notes) }
    let rec4 := update_record rec3 new_emp platform ("rediscovered_from_" ++ src)
                  conf src s why now
    let (rec5, atr) :=
      if !is_pdf new_emp && same_site new_emp base_home then
        let ((pdf, pdf_reason), ftr) := find_application_pdf env new_emp base_home
        match pdf with
        | some p =>
          let rec4a :=
            if rec4.applicationUrlOriginal == none && rec4.applicationUrl.isSome then
              { rec4 with applicationUrlOriginal := rec4.applicationUrl }
            else rec4
          ({ rec4a with
             applicationUrl := some p
             applicationUrlFinal := some p
             applicationUrlLastCheckedAt := some now
             applicationUrlChangeReason := some pdf_reason
             applicationUrlConfidence := some 85 }, ftr)
        | none => (rec4, ftr)
      else (rec4, [])
    (rec5,
     { town := town, action := "updated", platform := some platform,
       oldEmploymentUrl := some rec2.employmentUrl,
       newEmploymentUrl := some new_emp, confidence := some conf,
       source := some src,
       employmentPageType := some (rec5.employmentPageType.getD "") },
     tr ++ atr)

-- ==================== the per-record state machine ====================

/-- The record after homepage normalisation and the platform-detection
write-back (`rec["platform_detected"] = platform`). -/
def rec2Of (rec0 : Record) : Record :=
  { normalizeHome rec0 with
    platformDetected := some (detect_platform (normalizeHome rec0)) }

def rediscover_for_town (env : Env) (now : String) (rec0 : Record) :
    Record × Row × List String :=
  let rec1 := normalizeHome rec0
  if is_url rec1.townWebsite then
    let platform := detect_platform rec1
    let rec2 := rec2Of rec0
    if dntGate rec2.employmentUrlStatus then
      (rec2,
       { town := townName rec0, action := "no_change",
         reason := some ("status_" ++ statusStr rec2.employmentUrlStatus
                           ++ "_bot_block_likely"),
         platform := some platform },
       [])
    else if should_attempt rec2 then
      let st := pipelineState env platform rec1.townWebsite (townName rec0)
      finalize env now platform rec1.townWebsite (townName rec0) rec2
        st.bh st.bp st.lb st.tr
    else
      (rec2,
       { town := townName rec0, action := "no_change",
         reason := some "employment_not_marked_broken",
         platform := some platform },
       [])
  else
    (rec1,
     { town := townName rec0, action := "skipped",
       reason := some "missing_town_homepage" },
     [])

/-- The `main` loop over the record list: every record is processed in
order, each yielding exactly one report row (records are processed
independently; no failure of one prevents the others). -/
def processRecords (env : Env) (now : String) (recs : List Record) :
    List Record × List Row :=
  let outs := recs.map (rediscover_for_town env now)
  (outs.map (fun x => x.1), outs.map (fun x => x.2.1))

-- ==================== concrete scenarios ====================

/-- An environment in which every fetch fails with a transport error. -/
def envNone : Env := fun _ => none

/-- Scenario: a generic ("other") site whose homepage links to a live
same-site jobs page. -/
def envAlpha : Env := fun u =>
  if u == "https://alpha.example/" then
    some { url := "https://alpha.example/",
           links := [("https://alpha.example/jobs", "Jobs")], text := "hello" }
  else if u == "https://alpha.example/jobs" then
    some { url := "https://alpha.example/jobs", text := "hello" }
  else none

def recAlpha : Record :=
  { town := "Alpha", townWebsite := "https://alpha.example/",
    employmentUrlStatus := some 404 }

/-- Scenario: the homepage links (only) to `quicklinks.aspx`; a CivicPlus
template page `Jobs.aspx` is also live.  The first run (platform `other`)
can only find `quicklinks.aspx`; its URL then makes `detect_platform`
report `civicplus` on the second run, which finds `Jobs.aspx`. -/
def envBeta : Env := fun u =>
  if u == "https://beta.example/" then
    some { url := "https://beta.example/",
           links := [("https://beta.example/quicklinks.aspx", "Jobs")], text := "hello" }
  else if u == "https://beta.example/quicklinks.aspx" then
    some { url := "https://beta.example/quicklinks.aspx", text := "hello" }
  else if u == "https://beta.example/Jobs.aspx" then
    some { url := "https://beta.example/Jobs.aspx", text := "hello" }
  else none

def recBeta : Record :=
  { town := "Beta", townWebsite := "https://beta.example/",
    employmentUrlStatus := some 404 }

/-- Scenario: a CivicLift record with a stored employment URL, where every
fetch fails, so no candidate validates. -/
def recGamma : Record :=
  { town := "Gamma", atsPlatformHint := "CivicLift",
    townWebsite := "https://gamma.example/",
    employmentUrl := "https://gamma.example/old",
    employmentUrlStatus := some 404 }

/-- Scenario: a CivicLift record with no stored employment URL, every
fetch failing. -/
def recGamma2 : Record :=
  { town := "Gamma2", atsPlatformHint := "civiclift",
    townWebsite := "https://gamma2.example/",
    employmentUrlStatus := some 404 }

/-- A bot-block-likely (403) record with a resolvable homepage. -/
def recDelta : Record :=
  { town := "Delta", townWebsite := "https://delta.example/",
    employmentUrlStatus := some 403 }

/-- A bot-block-likely (403) record with no resolvable homepage at all. -/
def recEps : Record := { town := "Eps", employmentUrlStatus := some 403 }

/-- A record that is not marked broken (status 200). -/
def recZeta : Record :=
  { town := "Zeta", townWebsite := "https://zeta.example/",
    employmentUrlStatus := some 200 }

/-- An inner splash target that is both an ATS-hint match (`neogov.com`)
and a social-substring match (`facebook.com`). -/
def tSocAts : String := "https://www.neogov.com/facebook.com"

def envSplashSocial : Env := fun u =>
  if u == "https://town.example/jobs" then
    some { url := "https://town.example/jobs?splash=" ++ tSocAts, text := "hello" }
  else none

/-- A Granicus splash page redirecting (with percent-encoding) to a
GovernmentJobs careers URL, served with HTTP 500 and a blocked-looking,
soft-404-looking body. -/
def respSplash500 : Response :=
  { url := "https://town4.example/MinutesViewer.php?splash=https%3A%2F%2Fwww.governmentjobs.com%2Fcareers%2Ftown4",
    status := 500, text := "access denied 404" }

def envSplash500 : Env := fun u =>
  if u == "https://town4.example/start" then some respSplash500 else none

/-- A same-site page on a host that merely embeds the social domain name
`x.com` (`essex.com` ends in `x.com`). -/
def envEssex : Env := fun u =>
  if u == "https://www.essex.com/jobs" then
    some { url := "https://www.essex.com/jobs", text := "hello" }
  else none

/-- Candidate list with a non-URL entry and two entries whose URL strings
differ only by surrounding whitespace. -/
def exDedup : List Cand :=
  [("notaurl", "L0", "s0"), (" https://a.example/", "L1", "s1"),
   ("https://a.example/", "L2", "s2")]

-- ==================== counterexamples ====================

set_option maxRecDepth 8000

/-- C1 counterexample: the splash-unwrap short-circuit accepts an inner URL
that matches an ATS hint but also contains a social domain (`facebook.com`),
so an accepted final URL can be social, contrary to the claim. -/
theorem c1_counterexample :
    (validate_candidate envSplashSocial "https://town.example/jobs"
        "https://town.example/").ok = true
      ∧ (validate_candidate envSplashSocial "https://town.example/jobs"
          "https://town.example/").final = some tSocAts
      ∧ is_social tSocAts = true := by decide

/-- C2 counterexample: a record with do-not-touch status 403 but no
resolvable homepage is reported `skipped` (reason `missing_town_homepage`),
not `no_change` with a status-referencing reason. -/
theorem c2_counterexample :
    recEps.employmentUrlStatus = some 403
      ∧ (rediscover_for_town envNone "T0" recEps).2.1.action = "skipped"
      ∧ ¬ (rediscover_for_town envNone "T0" recEps).2.1.action = "no_change" := by
  decide

/-- C3 counterexample: on the CivicLift ephemeral fallback the record's
content-type is set to `ephemeral_posts` while the record's employment link
is left unchanged, so content-type is set independently of a new link. -/
theorem c3_counterexample :
    recGamma.employmentPageType = none
      ∧ (rediscover_for_town envNone "T0" recGamma).1.employmentPageType
          = some "ephemeral_posts"
      ∧ (rediscover_for_town envNone "T0" recGamma).1.employmentUrl
          = recGamma.employmentUrl := by decide

/-- C4 counterexample: the ephemeral outcome reports the homepage as the new
URL but does not write it into the record's employment-link field. -/
theorem c4_counterexample :
    (rediscover_for_town envNone "T0" recGamma2).2.1.action = "updated"
      ∧ (rediscover_for_town envNone "T0" recGamma2).2.1.newEmploymentUrl
          = some "https://gamma2.example/"
      ∧ (rediscover_for_town envNone "T0" recGamma2).2.1.confidence = some 60
      ∧ (rediscover_for_town envNone "T0" recGamma2).2.1.employmentPageType
          = some "ephemeral_posts"
      ∧ (rediscover_for_town envNone "T0" recGamma2).1.employmentUrl
          = recGamma2.employmentUrl
      ∧ ¬ recGamma2.employmentUrl = "https://gamma2.example/" := by decide

/-- C7 counterexample: two candidates whose URL strings differ only by
surrounding whitespace are merged (and a non-URL candidate is dropped), so
de-duplication is by stripped URL, not by exact URL string. -/
theorem c7_counterexample :
    ¬ dedupCands exDedup = dedupExactSpec exDedup
      ∧ dedupCands exDedup = [("https://a.example/", "L1", "s1")]
      ∧ dedupExactSpec exDedup = exDedup := by decide

/-- C8 counterexample: a second run on the engine's own output, under an
unchanged network, updates to a different URL: the first run (platform
`other`) picks `quicklinks.aspx`, whose URL makes platform detection report
`civicplus` on the second run, which then picks `Jobs.aspx`. -/
theorem c8_counterexample :
    ((rediscover_for_town envBeta "T1" recBeta).2.1.action = "updated"
        ∧ (rediscover_for_town envBeta "T1" recBeta).2.1.newEmploymentUrl
            = some "https://beta.example/quicklinks.aspx")
      ∧ (rediscover_for_town envBeta "T2"
            (rediscover_for_town envBeta "T1" recBeta).1).2.1.action = "updated"
      ∧ (rediscover_for_town envBeta "T2"
            (rediscover_for_town envBeta "T1" recBeta).1).2.1.newEmploymentUrl
          = some "https://beta.example/Jobs.aspx"
      ∧ ¬ ("https://beta.example/Jobs.aspx" : String)
            = "https://beta.example/quicklinks.aspx" := by decide

-- ==================== C1 (amended) and C6 ====================

/-- C1 amended: whenever the Validator accepts, the final URL satisfies the
same-site-or-ATS-hint check; on the normal acceptance path (reason `ok`)
it is additionally not a social match — but the splash-unwrap
short-circuit gives no social guarantee (see the counterexample). -/
theorem c1_validator_accept_sites (env : Env) (url base_home f r : String)
    (b : Option String)
    (h : validate_candidate env url base_home = ⟨true, some f, r, b⟩) :
    (same_site f base_home || is_ats f) = true
      ∧ (r = "ok" → is_social f = false) := by
  unfold validate_candidate at h
  cases henv : env url with
  | none => rw [henv] at h; simp at h
  | some resp =>
    simp only [henv] at h
    split at h
    next t2 heq =>
      have ht : is_ats t2 = true := by
        split at heq
        next t3 hu =>
          by_cases hats : is_ats t3 = true
          · simp [hats] at heq; rw [← heq]; exact hats
          · simp [hats] at heq
        next => simp at heq
      have hf : f = t2 := by
        have := congrArg VOutcome.final h
        simpa using this.symm
      have hr : r = "ok_granicus_splash_to_ats" := by
        have := congrArg VOutcome.reason h
        simpa using this.symm
      subst hf hr
      refine ⟨by simp [ht], ?_⟩
      intro hcontra
      exact absurd hcontra (by decide)
    next heq =>
      split at h
      · exact absurd (congrArg VOutcome.ok h) (by simp)
      · split at h
        next b2 hb => exact absurd (congrArg VOutcome.ok h) (by simp)
        next hb =>
          split at h
          · exact absurd (congrArg VOutcome.ok h) (by simp)
          · split at h
            · exact absurd (congrArg VOutcome.ok h) (by simp)
            · split at h
              next hoff =>
                exact absurd (congrArg VOutcome.ok h) (by simp)
              next hoff =>
                rename_i _ hsoc
                have hf : f = adjustedFinal url resp := by
                  have := congrArg VOutcome.final h
                  simpa using this.symm
                subst hf
                constructor
                · revert hoff
                  cases same_site (adjustedFinal url resp) base_home <;>
                    cases is_ats (adjustedFinal url resp) <;> simp
                · intro _
                  simpa using hsoc

/-- C1 witness: a live same-site page is accepted with reason `ok`, and the
theorem's conclusions hold for it. -/
theorem c1_witness :
    ((same_site "https://alpha.example/jobs" "https://alpha.example/"
        || is_ats "https://alpha.example/jobs") = true
      ∧ ("ok" = "ok" → is_social "https://alpha.example/jobs" = false)) :=
  c1_validator_accept_sites envAlpha "https://alpha.example/jobs"
    "https://alpha.example/" "https://alpha.example/jobs" "ok" none (by decide)

/-- C6: when the (redirect-adjusted) final URL carries a splash parameter
decoding to an ATS-hint URL, the Validator accepts that inner URL
immediately, whatever the response status, body or site checks would say. -/
theorem c6_splash_bypass (env : Env) (url base_home : String) (resp : Response)
    (t : String)
    (h1 : env url = some resp)
    (h2 : unwrap_granicus_splash (adjustedFinal url resp) = some t)
    (h3 : is_ats t = true) :
    validate_candidate env url base_home
      = ⟨true, some t, "ok_granicus_splash_to_ats", none⟩ := by
  unfold validate_candidate
  rw [h1]
  simp [h2, h3]

/-- C6 witness: a percent-encoded GovernmentJobs splash target is accepted
directly although the response has status 500 and a body that would
otherwise be rejected as blocked (and as soft-404). -/
theorem c6_witness :
    validate_candidate envSplash500 "https://town4.example/start"
        "https://town4.example/"
      = ⟨true, some "https://www.governmentjobs.com/careers/town4",
          "ok_granicus_splash_to_ats", none⟩
      ∧ (400 : Int) ≤ respSplash500.status
      ∧ blocked_reason respSplash500.text = some "access denied"
      ∧ SOFT404_PATTERNS.any (fun p => strHas (lows respSplash500.text) p) = true :=
  ⟨c6_splash_bypass envSplash500 "https://town4.example/start"
      "https://town4.example/" respSplash500
      "https://www.governmentjobs.com/careers/town4"
      (by decide) (by decide) (by decide),
   by decide, by decide, by decide⟩

-- ==================== C9 and C10 ====================

theorem flatMap_const_nil (l : List String) :
    (l.flatMap (fun _ => ([] : List Cand))) = [] := by
  induction l with
  | nil => rfl
  | cons a t ih => simp [List.flatMap] at ih ⊢

/-- C9: transport errors are non-fatal: a failed fetch makes the Validator
return the fetch-error outcome; when every fetch fails, the crawl-based
sub-strategies contribute zero candidates (only the static template
candidates remain); and the run still yields one report row per record. -/
theorem c9_transport_errors :
    (∀ (env : Env) (url base_home : String), env url = none →
       validate_candidate env url base_home = ⟨false, none, "fetch_error", none⟩)
      ∧ (∀ (env : Env) (base_home : String), (∀ u, env u = none) →
           (discover_civicplus env base_home).1 = civicplusTemplates base_home
             ∧ (discover_civiclift env base_home).1
                 = civicliftTemplates base_home
                     ++ [(base_home, "CIVICLIFT_FALLBACK_HOME", "fallback_home")]
             ∧ (discover_granicus env base_home).1 = granicusTemplates base_home
             ∧ (discover_other env base_home).1 = [])
      ∧ (∀ (env : Env) (now : String) (recs : List Record),
           ((processRecords env now recs).2).length = recs.length) := by
  refine ⟨?_, ?_, ?_⟩
  · intro env url base_home h
    simp [validate_candidate, h]
  · intro env base_home hall
    refine ⟨?_, ?_, ?_, ?_⟩
    · simp [discover_civicplus, crawlHome, hall, flatMap_const_nil]
    · simp [discover_civiclift, crawlHome, hall]
    · simp [discover_granicus, crawlHome, hall]
    · simp [discover_other, crawlHome, hall]
  · intro env now recs
    simp [processRecords]

/-- C9 witness: under the all-failing environment the fetch-error outcome,
the zero-candidate crawls, and one-row-per-record all hold concretely. -/
theorem c9_witness :
    validate_candidate envNone "https://x.example/a" "https://x.example/"
        = ⟨false, none, "fetch_error", none⟩
      ∧ (discover_other envNone "https://x.example/").1 = []
      ∧ ((processRecords envNone "T0" [recDelta, recEps]).2).length
          = ([recDelta, recEps] : List Record).length :=
  ⟨c9_transport_errors.1 envNone "https://x.example/a" "https://x.example/" rfl,
   (c9_transport_errors.2.1 envNone "https://x.example/" (fun _ => rfl)).2.2.2,
   c9_transport_errors.2.2 envNone "T0" [recDelta, recEps]⟩

/-- C10: social-domain matching is substring matching over the whole URL:
any URL containing a configured social domain (such as a host ending in
`essex.com`, which contains `x.com`) is hard-vetoed by the Scorer with
-10000, and — for a response that reaches the social check (fetch
succeeded, no splash, status < 400, not blocked, not soft-404) — rejected
by the Validator as `social_blocked`, regardless of being same-site. -/
theorem c10_social_substring :
    (∀ url label base_home source, is_social url = true →
       score_candidate url label base_home source = -10000)
      ∧ (∀ (env : Env) (url base_home : String) (resp : Response),
           env url = some resp → resp.url = url →
           unwrap_granicus_splash url = none →
           resp.status < 400 →
           blocked_reason resp.text = none →
           looks_soft404 resp = false →
           is_social url = true →
           validate_candidate env url base_home
             = ⟨false, some url, "social_blocked", none⟩) := by
  constructor
  · intro url label base_home source h
    simp [score_candidate, h]
  · intro env url base_home resp h1 h2 h3 h4 h5 h6 h7
    have hfinal : adjustedFinal url resp = url := by
      unfold adjustedFinal
      rw [h2]
      simp
    have hst : ¬ ((400 : Int) ≤ resp.status) := by omega
    unfold validate_candidate
    simp only [h1, hfinal, h3, h5, hst, h6, h7]
    simp

/-- C10 witness: `https://www.essex.com/jobs` is same-site with its own base
yet scored -10000 and rejected as social, because `essex.com` contains the
configured social domain `x.com` as a substring. -/
theorem c10_witness :
    score_candidate "https://www.essex.com/jobs" "Jobs" "https://www.essex.com/"
        "homepage_link" = -10000
      ∧ validate_candidate envEssex "https://www.essex.com/jobs"
          "https://www.essex.com/"
          = ⟨false, some "https://www.essex.com/jobs", "social_blocked", none⟩
      ∧ same_site "https://www.essex.com/jobs" "https://www.essex.com/" = true :=
  ⟨c10_social_substring.1 "https://www.essex.com/jobs" "Jobs"
      "https://www.essex.com/" "homepage_link" (by decide),
   c10_social_substring.2 envEssex "https://www.essex.com/jobs"
      "https://www.essex.com/"
      { url := "https://www.essex.com/jobs", text := "hello" }
      (by decide) (by decide) (by decide) (by decide) (by decide) (by decide)
      (by decide),
   by decide⟩

-- ==================== structural lemmas ====================

theorem nh_status (r : Record) :
    (normalizeHome r).employmentUrlStatus = r.employmentUrlStatus := by
  unfold normalizeHome; split <;> [skip; split] <;> rfl

theorem nh_soft404 (r : Record) :
    (normalizeHome r).employmentUrlSoft404 = r.employmentUrlSoft404 := by
  unfold normalizeHome; split <;> [skip; split] <;> rfl

theorem nh_town (r : Record) : (normalizeHome r).town = r.town := by
  unfold normalizeHome; split <;> [skip; split] <;> rfl

theorem nh_emp (r : Record) :
    (normalizeHome r).employmentUrl = r.employmentUrl := by
  unfold normalizeHome; split <;> [skip; split] <;> rfl

theorem nh_notes (r : Record) : (normalizeHome r).notes = r.notes := by
  unfold normalizeHome; split <;> [skip; split] <;> rfl

theorem nh_ptype (r : Record) :
    (normalizeHome r).employmentPageType = r.employmentPageType := by
  unfold normalizeHome; split <;> [skip; split] <;> rfl

theorem nh_conf (r : Record) :
    (normalizeHome r).employmentUrlConfidence = r.employmentUrlConfidence := by
  unfold normalizeHome; split <;> [skip; split] <;> rfl

theorem nh_empfinal (r : Record) :
    (normalizeHome r).employmentUrlFinal = r.employmentUrlFinal := by
  unfold normalizeHome; split <;> [skip; split] <;> rfl

theorem nh_app (r : Record) :
    (normalizeHome r).applicationUrl = r.applicationUrl := by
  unfold normalizeHome; split <;> [skip; split] <;> rfl

theorem nh_appfinal (r : Record) :
    (normalizeHome r).applicationUrlFinal = r.applicationUrlFinal := by
  unfold normalizeHome; split <;> [skip; split] <;> rfl

theorem townName_congr (r r' : Record) (h : r.town = r'.town) :
    townName r = townName r' := by
  unfold townName; rw [h]

theorem should_attempt_congr (r r' : Record)
    (h1 : r.employmentUrlStatus = r'.employmentUrlStatus)
    (h2 : r.employmentUrlSoft404 = r'.employmentUrlSoft404) :
    should_attempt r = should_attempt r' := by
  unfold should_attempt; rw [h1, h2]

-- ==================== finalize equation lemmas ====================

theorem finalize_ephemeral (env : Env) (now platform base_home town : String)
    (rec2 : Record) (bh bp : Option (Int × String × String × String))
    (lb : Option String) (tr : List String)
    (hch : chooseBest bh bp = none) (hp : (platform == "civiclift") = true) :
    finalize env now platform base_home town rec2 bh bp lb tr
      = ({ rec2 with employmentPageType := some "ephemeral_posts" },
         { town := town, action := "updated", platform := some platform,
           reason := some "no_stable_employment_page_detected_ephemeral_posts",
           newEmploymentUrl := some base_home, confidence := some 60,
           employmentPageType := some "ephemeral_posts" },
         tr) := by
  unfold finalize
  simp only [hch, hp]
  rfl

theorem finalize_review_lb (env : Env) (now platform base_home town : String)
    (rec2 : Record) (bh bp : Option (Int × String × String × String))
    (b : String) (tr : List String)
    (hch : chooseBest bh bp = none) (hp : (platform == "civiclift") = false) :
    finalize env now platform base_home town rec2 bh bp (some b) tr
      = ({ rec2 with employmentUrlLastBlockedReason := some b },
         { town := town, action := "needs_review",
           reason := some "no_candidate_validated", platform := some platform,
           blockedReason := some b },
         tr) := by
  unfold finalize
  simp only [hch, hp]
  rfl

theorem finalize_review (env : Env) (now platform base_home town : String)
    (rec2 : Record) (bh bp : Option (Int × String × String × String))
    (tr : List String)
    (hch : chooseBest bh bp = none) (hp : (platform == "civiclift") = false) :
    finalize env now platform base_home town rec2 bh bp none tr
      = (rec2,
         { town := town, action := "needs_review",
           reason := some "no_candidate_validated", platform := some platform },
         tr) := by
  unfold finalize
  simp only [hch, hp]
  rfl

theorem finalize_some_spec (env : Env) (now platform base_home town : String)
    (rec2 : Record) (bh bp : Option (Int × String × String × String))
    (lb : Option String) (tr : List String) (s : Int) (new_emp src why : String)
    (hch : chooseBest bh bp = some (s, new_emp, src, why)) :
    ∃ rec5 atr,
      finalize env now platform base_home town rec2 bh bp lb tr
        = (rec5,
           { town := town, action := "updated", platform := some platform,
             oldEmploymentUrl := some rec2.employmentUrl,
             newEmploymentUrl := some new_emp,
             confidence := some (confFor new_emp), source := some src,
             employmentPageType := some (rec5.employmentPageType.getD "") },
           tr ++ atr)
        ∧ rec5.employmentUrl = new_emp
        ∧ rec5.employmentUrlConfidence = some (confFor new_emp)
        ∧ rec5.employmentPageType = some (pageTypeFor platform new_emp rec2.notes)
        ∧ rec5.employmentUrlStatus = rec2.employmentUrlStatus
        ∧ rec5.employmentUrlSoft404 = rec2.employmentUrlSoft404
        ∧ rec5.town = rec2.town
        ∧ rec5.townWebsite = rec2.townWebsite := by
  unfold finalize
  simp only [hch]
  repeat' split
  all_goals
    exact ⟨_, _, rfl, by simp [update_record], by simp [update_record],
      by simp [update_record], by simp [update_record], by simp [update_record],
      by simp [update_record], by simp [update_record]⟩

-- ==================== C2 (amended) ====================

/-- C2 amended: for every record with a resolvable homepage whose status is
in the do-not-touch set `{401, 403}`, the engine answers `no_change` with a
reason naming the status, performs zero fetches, and leaves the record's
employment link unchanged (a record without a resolvable homepage is
instead `skipped`, see the counterexample — also with zero fetches). -/
theorem c2_do_not_touch (env : Env) (now : String) (rec : Record)
    (hs : rec.employmentUrlStatus = some 401 ∨ rec.employmentUrlStatus = some 403)
    (hu : is_url (normalizeHome rec).townWebsite = true) :
    (rediscover_for_town env now rec).2.2 = []
      ∧ (rediscover_for_town env now rec).1.employmentUrl = rec.employmentUrl
      ∧ (rediscover_for_town env now rec).2.1.action = "no_change"
      ∧ (rediscover_for_town env now rec).2.1.reason
          = some ("status_" ++ statusStr rec.employmentUrlStatus
                    ++ "_bot_block_likely") := by
  have hd : dntGate rec.employmentUrlStatus = true := by
    rcases hs with h | h <;> simp [dntGate, h]
  unfold rediscover_for_town
  simp [hu, hd, rec2Of, nh_status, nh_emp]

/-- C2 witness: a 403 record with a homepage gets `no_change` with a
status-referencing reason, an empty fetch trace, and an unchanged link. -/
theorem c2_witness :
    (rediscover_for_town envNone "T0" recDelta).2.2 = []
      ∧ (rediscover_for_town envNone "T0" recDelta).1.employmentUrl
          = recDelta.employmentUrl
      ∧ (rediscover_for_town envNone "T0" recDelta).2.1.action = "no_change"
      ∧ (rediscover_for_town envNone "T0" recDelta).2.1.reason
          = some ("status_" ++ statusStr recDelta.employmentUrlStatus
                    ++ "_bot_block_likely") :=
  c2_do_not_touch envNone "T0" recDelta (Or.inr (by decide)) (by decide)

theorem r2_status (r : Record) :
    (rec2Of r).employmentUrlStatus = r.employmentUrlStatus := by
  simp [rec2Of, nh_status]

theorem r2_soft404 (r : Record) :
    (rec2Of r).employmentUrlSoft404 = r.employmentUrlSoft404 := by
  simp [rec2Of, nh_soft404]

theorem r2_emp (r : Record) : (rec2Of r).employmentUrl = r.employmentUrl := by
  simp [rec2Of, nh_emp]

theorem r2_notes (r : Record) : (rec2Of r).notes = r.notes := by
  simp [rec2Of, nh_notes]

theorem r2_town (r : Record) : (rec2Of r).town = r.town := by
  simp [rec2Of, nh_town]

theorem r2_empfinal (r : Record) :
    (rec2Of r).employmentUrlFinal = r.employmentUrlFinal := by
  simp [rec2Of, nh_empfinal]

theorem r2_app (r : Record) : (rec2Of r).applicationUrl = r.applicationUrl := by
  simp [rec2Of, nh_app]

theorem r2_appfinal (r : Record) :
    (rec2Of r).applicationUrlFinal = r.applicationUrlFinal := by
  simp [rec2Of, nh_appfinal]

theorem r2_conf (r : Record) :
    (rec2Of r).employmentUrlConfidence = r.employmentUrlConfidence := by
  simp [rec2Of, nh_conf]

theorem r2_ptype (r : Record) :
    (rec2Of r).employmentPageType = r.employmentPageType := by
  simp [rec2Of, nh_ptype]

/-- The accepted-candidate confidence always lies in `[70, 95]`. -/
theorem confFor_bounds (u : String) : 0 ≤ confFor u ∧ confFor u ≤ 95 := by
  unfold confFor
  simp only [min_def, max_def]
  split_ifs <;> constructor <;> omega

/-- Every run of the per-record state machine lands in one of exactly five
shapes: skipped, no-change, CivicLift-ephemeral update, needs-review, or an
accepted-candidate update (with its confidence and page-type equations). -/
theorem rediscover_shape (env : Env) (now : String) (rec : Record) :
    rediscover_for_town env now rec
        = (normalizeHome rec,
           { town := townName rec, action := "skipped",
             reason := some "missing_town_homepage" }, [])
      ∨ (∃ rsn, rediscover_for_town env now rec
            = (rec2Of rec,
               { town := townName rec, action := "no_change", reason := some rsn,
                 platform := some (detect_platform (normalizeHome rec)) }, []))
      ∨ (∃ tr, rediscover_for_town env now rec
            = ({ rec2Of rec with employmentPageType := some "ephemeral_posts" },
               { town := townName rec, action := "updated",
                 platform := some (detect_platform (normalizeHome rec)),
                 reason := some "no_stable_employment_page_detected_ephemeral_posts",
                 newEmploymentUrl := some (normalizeHome rec).townWebsite,
                 confidence := some 60,
                 employmentPageType := some "ephemeral_posts" }, tr))
      ∨ (∃ v row tr, rediscover_for_town env now rec
            = ({ rec2Of rec with employmentUrlLastBlockedReason := v }, row, tr)
            ∧ row.action = "needs_review" ∧ row.confidence = none
            ∧ row.employmentPageType = none ∧ row.newEmploymentUrl = none)
      ∨ (∃ rec5 new_emp src tr, rediscover_for_town env now rec
            = (rec5,
               { town := townName rec, action := "updated",
                 platform := some (detect_platform (normalizeHome rec)),
                 oldEmploymentUrl := some rec.employmentUrl,
                 newEmploymentUrl := some new_emp,
                 confidence := some (confFor new_emp), source := some src,
                 employmentPageType := some (rec5.employmentPageType.getD "") }, tr)
            ∧ rec5.employmentUrl = new_emp
            ∧ rec5.employmentUrlConfidence = some (confFor new_emp)
            ∧ rec5.employmentPageType
                = some (pageTypeFor (detect_platform (normalizeHome rec)) new_emp
                          rec.notes)
            ∧ rec5.employmentUrlStatus = rec.employmentUrlStatus
            ∧ rec5.employmentUrlSoft404 = rec.employmentUrlSoft404
            ∧ rec5.town = rec.town
            ∧ rec5.townWebsite = (normalizeHome rec).townWebsite) := by
  by_cases hu : is_url (normalizeHome rec).townWebsite = true
  case neg =>
    left
    unfold rediscover_for_town
    simp [hu]
  case pos =>
    by_cases hd : dntGate rec.employmentUrlStatus = true
    case pos =>
      right; left
      refine ⟨"status_" ++ statusStr rec.employmentUrlStatus ++ "_bot_block_likely", ?_⟩
      unfold rediscover_for_town
      simp [hu, hd, r2_status, nh_status]
    case neg =>
      by_cases ha : should_attempt (rec2Of rec) = true
      case neg =>
        right; left
        refine ⟨"employment_not_marked_broken", ?_⟩
        unfold rediscover_for_town
        simp [hu, hd, ha, r2_status, nh_status]
      case pos =>
        unfold rediscover_for_town
        have hd2 : dntGate (rec2Of rec).employmentUrlStatus = false := by
          rw [r2_status]
          simpa using hd
        simp only [hu, if_true, hd2, Bool.false_eq_true, if_false, ha]
        set st := pipelineState env (detect_platform (normalizeHome rec))
          ((normalizeHome rec).townWebsite) (townName rec) with hst
        cases hch : chooseBest st.bh st.bp with
        | none =>
          by_cases hp : (detect_platform (normalizeHome rec) == "civiclift") = true
          case pos =>
            rw [finalize_ephemeral env now _ _ _ _ _ _ _ _ hch hp]
            exact Or.inr (Or.inr (Or.inl ⟨st.tr, rfl⟩))
          case neg =>
            cases hlb : st.lb with
            | some b =>
              rw [finalize_review_lb env now _ _ _ _ _ _ _ _ hch (by simpa using hp)]
              exact Or.inr (Or.inr (Or.inr (Or.inl
                ⟨some b, _, st.tr, rfl, rfl, rfl, rfl, rfl⟩)))
            | none =>
              rw [finalize_review env now _ _ _ _ _ _ _ hch (by simpa using hp)]
              exact Or.inr (Or.inr (Or.inr (Or.inl
                ⟨(rec2Of rec).employmentUrlLastBlockedReason, _, st.tr, rfl, rfl, rfl,
                  rfl, rfl⟩)))
        | some x =>
          obtain ⟨s, new_emp, src, why⟩ := x
          obtain ⟨rec5, atr, heq, hemp, hconf, hptype, hst2, hsf, htn, hwb⟩ :=
            finalize_some_spec env now (detect_platform (normalizeHome rec))
              ((normalizeHome rec).townWebsite) (townName rec) (rec2Of rec)
              st.bh st.bp st.lb st.tr s new_emp src why hch
          rw [r2_emp] at heq
          rw [r2_notes] at hptype
          rw [r2_status] at hst2
          rw [r2_soft404] at hsf
          rw [r2_town] at htn
          rw [show (rec2Of rec).townWebsite = (normalizeHome rec).townWebsite
                from by simp [rec2Of]] at hwb
          rw [heq]
          exact Or.inr (Or.inr (Or.inr (Or.inr
            ⟨rec5, new_emp, src, st.tr ++ atr, rfl, hemp, hconf, hptype,
              hst2, hsf, htn, hwb⟩)))

-- ==================== C3 (amended) ====================

/-- C3 amended: link fields (employment and application URL and their
`_final` mirrors) are overwritten only under action `updated`, and
confidence only together with the new link (the record's link then equals
the reported new URL); content-type is likewise only set under `updated`,
but the ephemeral fallback sets it without touching the link (see the
counterexample), so content-type-implies-new-link fails while
content-type-implies-`updated` holds. -/
theorem c3_frame (env : Env) (now : String) (rec : Record) :
    (¬ (rediscover_for_town env now rec).2.1.action = "updated" →
        (rediscover_for_town env now rec).1.employmentUrl = rec.employmentUrl
          ∧ (rediscover_for_town env now rec).1.employmentUrlFinal
              = rec.employmentUrlFinal
          ∧ (rediscover_for_town env now rec).1.applicationUrl = rec.applicationUrl
          ∧ (rediscover_for_town env now rec).1.applicationUrlFinal
              = rec.applicationUrlFinal
          ∧ (rediscover_for_town env now rec).1.employmentUrlConfidence
              = rec.employmentUrlConfidence
          ∧ (rediscover_for_town env now rec).1.employmentPageType
              = rec.employmentPageType)
      ∧ (¬ (rediscover_for_town env now rec).1.employmentUrlConfidence
              = rec.employmentUrlConfidence →
          (rediscover_for_town env now rec).2.1.action = "updated"
            ∧ some ((rediscover_for_town env now rec).1.employmentUrl)
                = (rediscover_for_town env now rec).2.1.newEmploymentUrl)
      ∧ (¬ (rediscover_for_town env now rec).1.employmentPageType
              = rec.employmentPageType →
          (rediscover_for_town env now rec).2.1.action = "updated") := by
  rcases rediscover_shape env now rec with hA | ⟨rsn, hB⟩ | ⟨tr, hC⟩
    | ⟨v, row, tr, hD, hact, hcf, hpt, hnu⟩
    | ⟨rec5, ne, src, tr, hE, he, hc5, hp5, -, -, -, -⟩
  · rw [hA]
    exact ⟨fun _ => ⟨nh_emp rec, nh_empfinal rec, nh_app rec, nh_appfinal rec,
        nh_conf rec, nh_ptype rec⟩,
      fun h => absurd (nh_conf rec) h,
      fun h => absurd (nh_ptype rec) h⟩
  · rw [hB]
    exact ⟨fun _ => ⟨r2_emp rec, r2_empfinal rec, r2_app rec, r2_appfinal rec,
        r2_conf rec, r2_ptype rec⟩,
      fun h => absurd (r2_conf rec) h,
      fun h => absurd (r2_ptype rec) h⟩
  · rw [hC]
    exact ⟨fun h => absurd rfl h, fun h => absurd (r2_conf rec) h, fun _ => rfl⟩
  · rw [hD]
    refine ⟨fun _ => ⟨r2_emp rec, r2_empfinal rec, r2_app rec, r2_appfinal rec,
        r2_conf rec, r2_ptype rec⟩,
      fun h => absurd (r2_conf rec) h,
      fun h => absurd (r2_ptype rec) h⟩
  · rw [hE]
    exact ⟨fun h => absurd rfl h, fun _ => ⟨rfl, by rw [he]⟩, fun _ => rfl⟩

/-- C3 witness: a not-broken record yields `no_change` and, by the theorem,
all its link, confidence and content-type fields are untouched. -/
theorem c3_witness :
    ¬ (rediscover_for_town envNone "T0" recZeta).2.1.action = "updated"
      ∧ ((rediscover_for_town envNone "T0" recZeta).1.employmentUrl
            = recZeta.employmentUrl
          ∧ (rediscover_for_town envNone "T0" recZeta).1.employmentUrlFinal
              = recZeta.employmentUrlFinal
          ∧ (rediscover_for_town envNone "T0" recZeta).1.applicationUrl
              = recZeta.applicationUrl
          ∧ (rediscover_for_town envNone "T0" recZeta).1.applicationUrlFinal
              = recZeta.applicationUrlFinal
          ∧ (rediscover_for_town envNone "T0" recZeta).1.employmentUrlConfidence
              = recZeta.employmentUrlConfidence
          ∧ (rediscover_for_town envNone "T0" recZeta).1.employmentPageType
              = recZeta.employmentPageType) :=
  ⟨by decide, (c3_frame envNone "T0" recZeta).1 (by decide)⟩

-- ==================== C5 ====================

/-- C5: for every update via an accepted candidate (action `updated`, no
reason key) the reported and persisted confidence equal the spec formula
`confFor` (70, +15 employment keyword, +10 page-id pattern, at least 85 for
ATS, at most 75 for PDF, at most 95) applied to the new URL; every reported
confidence lies in `[0, 95]`; and a content-type is reported iff the action
is `updated`. -/
theorem c5_confidence (env : Env) (now : String) (rec : Record) :
    ((rediscover_for_town env now rec).2.1.action = "updated" →
        (rediscover_for_town env now rec).2.1.reason = none →
        (rediscover_for_town env now rec).2.1.confidence
            = some (confFor
                (((rediscover_for_town env now rec).2.1.newEmploymentUrl).getD ""))
          ∧ (rediscover_for_town env now rec).1.employmentUrlConfidence
              = some (confFor
                  (((rediscover_for_town env now rec).2.1.newEmploymentUrl).getD "")))
      ∧ (∀ c : Int, (rediscover_for_town env now rec).2.1.confidence = some c →
          0 ≤ c ∧ c ≤ 95)
      ∧ ((rediscover_for_town env now rec).2.1.employmentPageType.isSome = true
          ↔ (rediscover_for_town env now rec).2.1.action = "updated") := by
  rcases rediscover_shape env now rec with hA | ⟨rsn, hB⟩ | ⟨tr, hC⟩
    | ⟨v, row, tr, hD, hact, hcf, hpt, hnu⟩
    | ⟨rec5, ne, src, tr, hE, he, hc5, hp5, -, -, -, -⟩
  · rw [hA]
    refine ⟨fun h => absurd h (by simp), fun c hc => by simp at hc, by simp⟩
  · rw [hB]
    refine ⟨fun h => absurd h (by simp), fun c hc => by simp at hc, by simp⟩
  · rw [hC]
    refine ⟨fun _ h => by simp at h, fun c hc => ?_, by simp⟩
    have : c = 60 := by simpa using hc.symm
    omega
  · rw [hD]
    refine ⟨fun h _ => absurd (hact.symm.trans h) (by decide), fun c hc => ?_, ?_⟩
    · rw [hcf] at hc; simp at hc
    · rw [hpt, hact]; simp
  · rw [hE]
    refine ⟨fun _ _ => ⟨by simp, by simpa using hc5⟩, fun c hc => ?_, by simp⟩
    have hcc : c = confFor ne := by simpa using hc.symm
    rw [hcc]
    exact confFor_bounds ne

/-- C5 witness: the Alpha scenario updates to `/jobs` with confidence 85 =
`confFor` of the new URL, the bound holds at 85, and the content-type /
action biconditional holds. -/
theorem c5_witness :
    ((rediscover_for_town envAlpha "T1" recAlpha).2.1.confidence
        = some (confFor
            (((rediscover_for_town envAlpha "T1" recAlpha).2.1.newEmploymentUrl).getD ""))
      ∧ (rediscover_for_town envAlpha "T1" recAlpha).1.employmentUrlConfidence
          = some (confFor
              (((rediscover_for_town envAlpha "T1" recAlpha).2.1.newEmploymentUrl).getD "")))
      ∧ (0 ≤ (85 : Int) ∧ (85 : Int) ≤ 95)
      ∧ ((rediscover_for_town envAlpha "T1" recAlpha).2.1.employmentPageType.isSome
            = true
          ↔ (rediscover_for_town envAlpha "T1" recAlpha).2.1.action = "updated") :=
  ⟨(c5_confidence envAlpha "T1" recAlpha).1 (by decide) (by decide),
   (c5_confidence envAlpha "T1" recAlpha).2.1 85 (by decide),
   (c5_confidence envAlpha "T1" recAlpha).2.2⟩

-- ==================== C4 (amended) ====================

/-- C4 amended: a CivicLift record passing the gates for which the
validation loop accepts nothing gets outcome `updated` with the homepage as
the reported new employment link, confidence exactly 60 and content-type
tag `ephemeral_posts` ("ephemeral postings") — explicitly not
`needs_review` — and the record is tagged with that content-type; the
record's stored employment-link field itself, however, is left unchanged
(see the counterexample). -/
theorem c4_ephemeral (env : Env) (now : String) (rec : Record)
    (hu : is_url (normalizeHome rec).townWebsite = true)
    (hp : detect_platform (normalizeHome rec) = "civiclift")
    (hd : dntGate rec.employmentUrlStatus = false)
    (ha : should_attempt (rec2Of rec) = true)
    (hb : (pipelineState env "civiclift" (normalizeHome rec).townWebsite
            (townName rec)).bh = none)
    (hp2 : (pipelineState env "civiclift" (normalizeHome rec).townWebsite
            (townName rec)).bp = none) :
    rediscover_for_town env now rec
        = ({ rec2Of rec with employmentPageType := some "ephemeral_posts" },
           { town := townName rec, action := "updated", platform := some "civiclift",
             reason := some "no_stable_employment_page_detected_ephemeral_posts",
             newEmploymentUrl := some (normalizeHome rec).townWebsite,
             confidence := some 60,
             employmentPageType := some "ephemeral_posts" },
           (pipelineState env "civiclift" (normalizeHome rec).townWebsite
             (townName rec)).tr)
      ∧ (rediscover_for_town env now rec).1.employmentUrl = rec.employmentUrl := by
  have hd2 : dntGate (rec2Of rec).employmentUrlStatus = false := by
    rw [r2_status]; exact hd
  have heq : rediscover_for_town env now rec
      = ({ rec2Of rec with employmentPageType := some "ephemeral_posts" },
         { town := townName rec, action := "updated", platform := some "civiclift",
           reason := some "no_stable_employment_page_detected_ephemeral_posts",
           newEmploymentUrl := some (normalizeHome rec).townWebsite,
           confidence := some 60,
           employmentPageType := some "ephemeral_posts" },
         (pipelineState env "civiclift" (normalizeHome rec).townWebsite
           (townName rec)).tr) := by
    unfold rediscover_for_town
    simp only [hu, if_true, hd2, Bool.false_eq_true, if_false, ha, hp]
    rw [finalize_ephemeral env now _ _ _ _ _ _ _ _ (by rw [hb, hp2]; rfl) (by decide)]
  refine ⟨heq, ?_⟩
  rw [heq]
  exact r2_emp rec

/-- C4 witness: the all-fetches-fail CivicLift record Gamma2 lands exactly
in the ephemeral outcome, with the record's stored link untouched. -/
theorem c4_witness :
    rediscover_for_town envNone "T0" recGamma2
        = ({ rec2Of recGamma2 with employmentPageType := some "ephemeral_posts" },
           { town := townName recGamma2, action := "updated",
             platform := some "civiclift",
             reason := some "no_stable_employment_page_detected_ephemeral_posts",
             newEmploymentUrl := some (normalizeHome recGamma2).townWebsite,
             confidence := some 60,
             employmentPageType := some "ephemeral_posts" },
           (pipelineState envNone "civiclift"
             (normalizeHome recGamma2).townWebsite (townName recGamma2)).tr)
      ∧ (rediscover_for_town envNone "T0" recGamma2).1.employmentUrl
          = recGamma2.employmentUrl :=
  c4_ephemeral envNone "T0" recGamma2 (by decide) (by decide) (by decide)
    (by decide) (by decide) (by decide)

-- ==================== sorting and de-duplication lemmas ====================

theorem insKey_perm {α : Type} (key : α → Int) (a : α) (l : List α) :
    List.Perm (insKey key a l) (a :: l) := by
  induction l with
  | nil => exact List.Perm.refl _
  | cons b t ih =>
    unfold insKey
    split
    · exact List.Perm.refl _
    · exact (ih.cons b).trans (List.Perm.swap a b t)

theorem sortKey_perm {α : Type} (key : α → Int) (l : List α) :
    List.Perm (sortKey key l) l := by
  induction l with
  | nil => exact List.Perm.refl _
  | cons a t ih =>
    exact (insKey_perm key a (sortKey key t)).trans (ih.cons a)

theorem insKey_sorted {α : Type} (key : α → Int) (a : α) (l : List α)
    (h : l.Pairwise (fun x y => key y ≤ key x)) :
    (insKey key a l).Pairwise (fun x y => key y ≤ key x) := by
  induction l with
  | nil => simp [insKey]
  | cons b t ih =>
    rw [List.pairwise_cons] at h
    obtain ⟨hb, ht⟩ := h
    unfold insKey
    split
    next hle =>
      refine List.Pairwise.cons ?_ (List.Pairwise.cons hb ht)
      intro x hx
      rcases List.mem_cons.mp hx with rfl | hx2
      · exact hle
      · exact le_trans (hb x hx2) hle
    next hgt =>
      refine List.Pairwise.cons ?_ (ih ht)
      intro x hx
      have hx3 := (insKey_perm key a t).mem_iff.mp hx
      rcases List.mem_cons.mp hx3 with rfl | hx4
      · omega
      · exact hb x hx4

theorem sortKey_sorted {α : Type} (key : α → Int) (l : List α) :
    (sortKey key l).Pairwise (fun x y => key y ≤ key x) := by
  induction l with
  | nil => simp [sortKey]
  | cons a t ih => exact insKey_sorted key a (sortKey key t) ih

theorem insKey_stable {α : Type} (key : α → Int) (idx : α → Nat) (a : α)
    (l : List α)
    (h1 : ∀ x ∈ l, idx a < idx x)
    (h2 : l.Pairwise (fun x y => key y < key x ∨ (key x = key y ∧ idx x < idx y))) :
    (insKey key a l).Pairwise
      (fun x y => key y < key x ∨ (key x = key y ∧ idx x < idx y)) := by
  induction l with
  | nil => simp [insKey]
  | cons b t ih =>
    rw [List.pairwise_cons] at h2
    obtain ⟨hb, ht⟩ := h2
    unfold insKey
    split
    next hle =>
      refine List.Pairwise.cons ?_ (List.Pairwise.cons hb ht)
      intro x hx
      rcases List.mem_cons.mp hx with rfl | hx2
      · rcases lt_or_eq_of_le hle with h | h
        · exact Or.inl h
        · exact Or.inr ⟨h.symm, h1 x (List.mem_cons_self x t)⟩
      · rcases hb x hx2 with h | ⟨heq, hidx⟩
        · exact Or.inl (lt_of_lt_of_le h hle)
        · rcases lt_or_eq_of_le hle with h2' | h2'
          · exact Or.inl (heq ▸ h2')
          · exact Or.inr ⟨by rw [← h2', heq], h1 x (List.mem_cons_of_mem b hx2)⟩
    next hgt =>
      refine List.Pairwise.cons ?_
        (ih (fun x hx => h1 x (List.mem_cons_of_mem b hx)) ht)
      intro x hx
      have hx3 := (insKey_perm key a t).mem_iff.mp hx
      rcases List.mem_cons.mp hx3 with rfl | hx4
      · exact Or.inl (by omega)
      · exact hb x hx4

theorem sortKey_stable {α : Type} (key : α → Int) (idx : α → Nat) (l : List α)
    (h : l.Pairwise (fun x y => idx x < idx y)) :
    (sortKey key l).Pairwise
      (fun x y => key y < key x ∨ (key x = key y ∧ idx x < idx y)) := by
  induction l with
  | nil => simp [sortKey]
  | cons a t ih =>
    rw [List.pairwise_cons] at h
    obtain ⟨ha, ht⟩ := h
    unfold sortKey
    exact insKey_stable key idx a (sortKey key t)
      (fun x hx => ha x ((sortKey_perm key t).mem_iff.mp hx)) (ih ht)

theorem mem_enumFrom_le {α : Type} (x : Nat × α) :
    ∀ (l : List α) (n : Nat), x ∈ List.enumFrom n l → n ≤ x.1 := by
  intro l
  induction l with
  | nil => intro n h; simp [List.enumFrom] at h
  | cons a t ih =>
    intro n h
    rcases List.mem_cons.mp h with rfl | h2
    · exact le_refl _
    · exact le_trans (Nat.le_succ n) (ih (n + 1) h2)

theorem enumFrom_pairwise {α : Type} (l : List α) :
    ∀ n : Nat, (List.enumFrom n l).Pairwise (fun x y => x.1 < y.1) := by
  induction l with
  | nil => intro n; simp [List.enumFrom]
  | cons a t ih =>
    intro n
    refine List.Pairwise.cons ?_ (ih (n + 1))
    intro x hx
    exact lt_of_lt_of_le (Nat.lt_succ_self n) (mem_enumFrom_le x t (n + 1) hx)

/-- The seen-set de-duplication loop equals its first-occurrence-wins
specification (restricted to the candidates not already in `seen`). -/
theorem dedupGo_spec (l : List Cand) : ∀ seen : List String,
    dedupGo seen l
      = dedupSpec (l.filter
          (fun c => !(is_url c.1 && seen.contains (pyStrip c.1)))) := by
  induction l with
  | nil =>
    intro seen
    rw [List.filter_nil]
    rw [dedupGo, dedupSpec]
  | cons c rest ih =>
    intro seen
    by_cases hc : is_url c.1 = true
    case neg =>
      have hcb : is_url c.1 = false := by simpa using hc
      rw [dedupGo, List.filter_cons]
      simp only [hcb, Bool.false_and, Bool.not_false, if_true]
      rw [dedupSpec]
      simp only [hcb, Bool.false_eq_true, if_false]
      exact ih seen
    case pos =>
      by_cases hseen : seen.contains (pyStrip c.1) = true
      case pos =>
        rw [dedupGo, List.filter_cons]
        simp only [hc, hseen, Bool.and_self, Bool.not_true, if_true, if_false,
          Bool.true_and, Bool.false_eq_true]
        exact ih seen
      case neg =>
        have hseenb : seen.contains (pyStrip c.1) = false := by simpa using hseen
        rw [dedupGo, List.filter_cons]
        simp only [hc, hseenb, Bool.true_and, Bool.and_false, Bool.not_false,
          if_true, Bool.false_eq_true, if_false, Bool.not_true]
        rw [dedupSpec]
        simp only [hc, if_true]
        rw [ih (pyStrip c.1 :: seen)]
        have hfil :
            List.filter
                (fun d => !(is_url d.1 && (pyStrip c.1 :: seen).contains (pyStrip d.1)))
                rest
              = List.filter (fun d => !(is_url d.1 && pyStrip d.1 == pyStrip c.1))
                  (List.filter (fun d => !(is_url d.1 && seen.contains (pyStrip d.1)))
                    rest) := by
          rw [List.filter_filter]
          apply List.filter_congr
          intro d _
          cases hud : is_url d.1 <;> cases heqd : pyStrip d.1 == pyStrip c.1
          · simp [List.contains_cons, hud, heqd]
          · simp [List.contains_cons, hud, heqd]
          · simp [List.contains_cons, hud, heqd]
            intro _
            simpa using heqd
          · simp [List.contains_cons, hud, heqd]
            intro h
            exact absurd (by simpa using heqd) h
        rw [hfil]

-- ==================== C7 (amended) ====================

/-- C7 amended: candidates are filtered to URL-shaped strings and
de-duplicated by their whitespace-stripped URL (first occurrence wins, the
stored URL being the stripped form) — equal to the first-occurrence-wins
specification `dedupSpec`; and the scored list is sorted descending by
score with ties kept in generation order: `sortKey` (the stable descending
sort, the semantics of CPython `list.sort(reverse=True)`) is a permutation,
is sorted by descending score, and on an index-tagged list is ordered
lexicographically by (score descending, generation index ascending) — so
ties are never resolved by URL lexical order. -/
theorem c7_dedupe_sort :
    (∀ l : List Cand, dedupCands l = dedupSpec l)
      ∧ (∀ l : List SCand, List.Perm (sortKey (fun x => x.1) l) l)
      ∧ (∀ l : List SCand,
           (sortKey (fun x => x.1) l).Pairwise (fun x y => y.1 ≤ x.1))
      ∧ (∀ l : List SCand,
           (sortKey (fun x : Nat × SCand => x.2.1) l.enum).Pairwise
             (fun x y => y.2.1 < x.2.1 ∨ (x.2.1 = y.2.1 ∧ x.1 < y.1))) := by
  refine ⟨?_, ?_, ?_, ?_⟩
  · intro l
    have h := dedupGo_spec l []
    simpa [dedupCands] using h
  · intro l
    exact sortKey_perm _ l
  · intro l
    exact sortKey_sorted _ l
  · intro l
    exact sortKey_stable _ Prod.fst l.enum
      (by simpa [List.enum] using enumFrom_pairwise l 0)

-- ==================== C8 (amended) ====================

theorem r2_web (r : Record) :
    (rec2Of r).townWebsite = (normalizeHome r).townWebsite := by
  simp [rec2Of]

/-- A run never changes the status code, the soft-404 flag or the town
name, and leaves the town website at its normalised value. -/
theorem rediscover_pres (env : Env) (now : String) (rec : Record) :
    (rediscover_for_town env now rec).1.employmentUrlStatus = rec.employmentUrlStatus
      ∧ (rediscover_for_town env now rec).1.employmentUrlSoft404
          = rec.employmentUrlSoft404
      ∧ (rediscover_for_town env now rec).1.town = rec.town
      ∧ (rediscover_for_town env now rec).1.townWebsite
          = (normalizeHome rec).townWebsite := by
  rcases rediscover_shape env now rec with hA | ⟨rsn, hB⟩ | ⟨tr, hC⟩
    | ⟨v, row, tr, hD, hact, hcf, hpt, hnu⟩
    | ⟨rec5, ne, src, tr, hE, he, hc5, hp5, hst2, hsf, htn, hwb⟩
  · rw [hA]; exact ⟨nh_status rec, nh_soft404 rec, nh_town rec, rfl⟩
  · rw [hB]; exact ⟨r2_status rec, r2_soft404 rec, r2_town rec, r2_web rec⟩
  · rw [hC]; exact ⟨r2_status rec, r2_soft404 rec, r2_town rec, r2_web rec⟩
  · rw [hD]; exact ⟨r2_status rec, r2_soft404 rec, r2_town rec, r2_web rec⟩
  · rw [hE]; exact ⟨hst2, hsf, htn, hwb⟩

/-- The reported action and new URL do not depend on the timestamp, the
fetch trace so far, or the record fields other than those fixed by the
other arguments. -/
theorem finalize_row_congr (env : Env) (nowA nowB platform base_home town : String)
    (recA recB : Record) (bh bp : Option (Int × String × String × String))
    (lb : Option String) (trA trB : List String) :
    (finalize env nowA platform base_home town recA bh bp lb trA).2.1.action
        = (finalize env nowB platform base_home town recB bh bp lb trB).2.1.action
      ∧ (finalize env nowA platform base_home town recA bh bp lb trA).2.1.newEmploymentUrl
          = (finalize env nowB platform base_home town recB bh bp lb trB).2.1.newEmploymentUrl := by
  cases hch : chooseBest bh bp with
  | some x =>
    obtain ⟨s, new_emp, src, why⟩ := x
    obtain ⟨r5a, atra, heqa, -⟩ :=
      finalize_some_spec env nowA platform base_home town recA bh bp lb trA
        s new_emp src why hch
    obtain ⟨r5b, atrb, heqb, -⟩ :=
      finalize_some_spec env nowB platform base_home town recB bh bp lb trB
        s new_emp src why hch
    rw [heqa, heqb]
    exact ⟨rfl, rfl⟩
  | none =>
    by_cases hp : (platform == "civiclift") = true
    case pos =>
      rw [finalize_ephemeral env nowA _ _ _ _ _ _ _ _ hch hp,
        finalize_ephemeral env nowB _ _ _ _ _ _ _ _ hch hp]
      exact ⟨rfl, rfl⟩
    case neg =>
      have hp' : (platform == "civiclift") = false := by simpa using hp
      cases lb with
      | some b =>
        rw [finalize_review_lb env nowA _ _ _ _ _ _ _ _ hch hp',
          finalize_review_lb env nowB _ _ _ _ _ _ _ _ hch hp']
        exact ⟨rfl, rfl⟩
      | none =>
        rw [finalize_review env nowA _ _ _ _ _ _ _ hch hp',
          finalize_review env nowB _ _ _ _ _ _ _ hch hp']
        exact ⟨rfl, rfl⟩

/-- Two records that agree on normalised homepage, detected platform,
status, soft-404 flag and town get the same action and the same new URL
from the engine (under the same environment). -/
theorem rediscover_congr (env : Env) (nowA nowB : String) (ra rb : Record)
    (hw : (normalizeHome ra).townWebsite = (normalizeHome rb).townWebsite)
    (hp : detect_platform (normalizeHome ra) = detect_platform (normalizeHome rb))
    (hs : ra.employmentUrlStatus = rb.employmentUrlStatus)
    (hf : ra.employmentUrlSoft404 = rb.employmentUrlSoft404)
    (ht : ra.town = rb.town) :
    (rediscover_for_town env nowA ra).2.1.action
        = (rediscover_for_town env nowB rb).2.1.action
      ∧ ((rediscover_for_town env nowA ra).2.1.newEmploymentUrl
          = (rediscover_for_town env nowB rb).2.1.newEmploymentUrl) := by
  have htn : townName ra = townName rb := townName_congr ra rb ht
  unfold rediscover_for_town
  by_cases hu : is_url (normalizeHome rb).townWebsite = true
  case neg =>
    have hub : is_url (normalizeHome rb).townWebsite = false := by simpa using hu
    have hua : is_url (normalizeHome ra).townWebsite = false := by rw [hw]; exact hub
    simp [hua, hub]
  case pos =>
    have hua : is_url (normalizeHome ra).townWebsite = true := by rw [hw]; exact hu
    by_cases hd : dntGate rb.employmentUrlStatus = true
    case pos =>
      have hda : dntGate (rec2Of ra).employmentUrlStatus = true := by
        rw [r2_status, hs]; exact hd
      have hdb : dntGate (rec2Of rb).employmentUrlStatus = true := by
        rw [r2_status]; exact hd
      simp [hua, hu, hda, hdb]
    case neg =>
      have hda : dntGate (rec2Of ra).employmentUrlStatus = false := by
        rw [r2_status, hs]; simpa using hd
      have hdb : dntGate (rec2Of rb).employmentUrlStatus = false := by
        rw [r2_status]; simpa using hd
      by_cases hat : should_attempt (rec2Of rb) = true
      case neg =>
        have hata : should_attempt (rec2Of ra) = false := by
          rw [should_attempt_congr (rec2Of ra) (rec2Of rb)
            (by rw [r2_status, r2_status, hs]) (by rw [r2_soft404, r2_soft404, hf])]
          simpa using hat
        have hatb : should_attempt (rec2Of rb) = false := by simpa using hat
        simp [hua, hu, hda, hdb, hata, hatb]
      case pos =>
        have hata : should_attempt (rec2Of ra) = true := by
          rw [should_attempt_congr (rec2Of ra) (rec2Of rb)
            (by rw [r2_status, r2_status, hs]) (by rw [r2_soft404, r2_soft404, hf])]
          exact hat
        simp only [hua, hu, hda, hdb, hata, hat, if_true, Bool.false_eq_true,
          if_false, hw, hp, htn]
        exact finalize_row_congr env nowA nowB
          (detect_platform (normalizeHome rb)) ((normalizeHome rb).townWebsite)
          (townName rb) (rec2Of ra) (rec2Of rb) _ _ _ _ _

/-- C8 amended: a second run on the engine's own output, under an unchanged
network, repeats the first run's action — and, when the first run updated,
updates to the identical URL — provided the second run resolves the same
normalised homepage and detects the same platform as the first.  Without
that proviso the guarantee fails: platform detection reads the rewritten
employment URL, and the second run can update to a different URL (see the
counterexample); a `skipped` or `needs_review` record likewise repeats its
action rather than becoming `no_change`. -/
theorem c8_second_run (env : Env) (now1 now2 : String) (rec : Record)
    (H0 : (normalizeHome (rediscover_for_town env now1 rec).1).townWebsite
          = (normalizeHome rec).townWebsite)
    (H1 : detect_platform (normalizeHome (rediscover_for_town env now1 rec).1)
          = detect_platform (normalizeHome rec)) :
    (rediscover_for_town env now2 (rediscover_for_town env now1 rec).1).2.1.action
        = (rediscover_for_town env now1 rec).2.1.action
      ∧ ((rediscover_for_town env now1 rec).2.1.action = "updated" →
          (rediscover_for_town env now2
              (rediscover_for_town env now1 rec).1).2.1.newEmploymentUrl
            = (rediscover_for_town env now1 rec).2.1.newEmploymentUrl) := by
  obtain ⟨hs, hf, ht, -⟩ := rediscover_pres env now1 rec
  have h := rediscover_congr env now2 now1 (rediscover_for_town env now1 rec).1 rec
    H0 H1 hs hf ht
  exact ⟨h.1, fun _ => h.2⟩

/-- C8 witness: in the Alpha scenario the second run detects the same
platform, and indeed repeats `updated` with the identical new URL. -/
theorem c8_witness :
    (rediscover_for_town envAlpha "T2"
        (rediscover_for_town envAlpha "T1" recAlpha).1).2.1.action
        = (rediscover_for_town envAlpha "T1" recAlpha).2.1.action
      ∧ ((rediscover_for_town envAlpha "T1" recAlpha).2.1.action = "updated" →
          (rediscover_for_town envAlpha "T2"
              (rediscover_for_town envAlpha "T1" recAlpha).1).2.1.newEmploymentUrl
            = (rediscover_for_town envAlpha "T1" recAlpha).2.1.newEmploymentUrl) :=
  c8_second_run envAlpha "T1" "T2" recAlpha (by decide) (by decide)
